import Mathlib

/-!
Verification development for the proximity voice-room controller
(`usePlayerPositionEmitter.js`, `useVoiceControl.js`, `ProximityDashboard.vue`).

The JavaScript source is shallowly embedded: JS runtime values that matter to
the claims (string / number guids and map ids) become the inductive `SValue`;
JS numbers are idealised as rationals; the stateful composable becomes explicit
state records with pure transition functions, each translated clause by clause
from the cited source lines.  Asynchronous I/O outcomes (HTTP token fetch,
media-session connect) are passed in as explicit parameters, which is how a
single cooperative run of the code observes them.
-/

/-- A JavaScript primitive value as used for guids and map ids in the source:
either a string or a number.  JS numbers are modelled as rationals. -/
inductive SValue where
  | str (s : String)
  | num (q : ℚ)
deriving DecidableEq, Repr

/-- Rendering of a JS number by `String(...)`.  Faithful on integral values
(JS prints integral doubles with no decimal point); non-integral values get a
stand-in rendering that is still injective, which is all the source relies on. -/
def numToStr (q : ℚ) : String :=
  if q.den = 1 then toString q.num else toString q.num ++ "/" ++ toString q.den

/-- `String(v)` coercion from the source (used in `String(p.guid) === String(guid)`
and `String(p.map) === String(self.map)`). -/
def jsToString : SValue → String
  | .str s => s
  | .num q => numToStr q

/-- `String(a) === String(b)` : equality after string coercion. -/
def jsStrEq (a b : SValue) : Bool :=
  jsToString a == jsToString b

/-- JS strict equality `===` on primitive values: values of different types are
never equal; same-type values compare structurally. -/
def sEq : SValue → SValue → Bool
  | .str a, .str b => a == b
  | .num a, .num b => a == b
  | _, _ => false

/-- JS truthiness of a primitive: the empty string and `0` are falsy. -/
def jsTruthy : SValue → Bool
  | .str s => s != ""
  | .num q => q != 0

/-! ## Voice state (mute / deafen) -/

/-- The mute/deafen intent pair held by both voice-control implementations. -/
structure VoiceState where
  muted : Bool
  deafened : Bool
deriving DecidableEq, Repr

/-- `deafened = true` implies `muted = true` - the spec invariant. -/
def voiceInv (s : VoiceState) : Prop := s.deafened = true → s.muted = true

instance (s : VoiceState) : Decidable (voiceInv s) := by
  unfold voiceInv; infer_instance

/-- Initial refs of `useVoiceControl` (`useVoiceControl.js` lines 4-5):
`muted = ref(true)`, `deafened = ref(true)`. -/
def uvcInit : VoiceState := ⟨true, true⟩

/-- `toggleMute` from `useVoiceControl.js` lines 7-9: flips `muted` only. -/
def toggleMute (s : VoiceState) : VoiceState :=
  { s with muted := !s.muted }

/-- `toggleDeafen` from `useVoiceControl.js` lines 11-15:
`if (deafened.value && !muted.value) muted.value = true; deafened.value = !deafened.value`. -/
def toggleDeafen (s : VoiceState) : VoiceState :=
  { muted := if s.deafened && !s.muted then true else s.muted,
    deafened := !s.deafened }

/-- The watcher-based machine of `ProximityDashboard.vue` lines 123-131, as the
state change produced by the user setting the `muted` checkbox to `v`.
`watch(muted, v => { if (!v && deafened.value) deafened.value = false; ... })`;
clearing `deafened` re-triggers the `deafened` watcher with `v = false`, which
changes nothing further.  A write of the current value does not fire the watcher. -/
def dashSetMuted (s : VoiceState) (v : Bool) : VoiceState :=
  if v = s.muted then s
  else if v then { s with muted := true }
  else if s.deafened then ⟨false, false⟩
  else { s with muted := false }

/-- The watcher-based machine of `ProximityDashboard.vue` lines 127-131, as the
state change produced by the user setting the `deafened` checkbox to `v`:
`watch(deafened, v => { if (v) muted.value = true; toggleMic(muted.value); setDeafened(v) })`;
forcing `muted` re-triggers the `muted` watcher with `v = true`, which changes
nothing further. -/
def dashSetDeafened (s : VoiceState) (v : Bool) : VoiceState :=
  if v = s.deafened then s
  else if v then ⟨true, true⟩
  else ⟨s.muted, false⟩

/-! ## Geometry: the applied volume curve -/

/-- The volume written to a peer element in `usePlayerPositionEmitter.js`
(part_001) lines 180-187:
`const minD = 5, maxD = 150; let vol = d <= minD ? 1 : d >= maxD ? 0 : 1 - (d - minD)/(maxD - minD); el.volume = Math.max(0, Math.min(1, vol))`. -/
def appliedVolume (d : ℚ) : ℚ :=
  let minD : ℚ := 5
  let maxD : ℚ := 150
  let vol : ℚ := if d ≤ minD then 1 else if maxD ≤ d then 0 else 1 - (d - minD) / (maxD - minD)
  max 0 (min 1 vol)

/-! ## Telemetry records and the nearby-set computation -/

/-- One flattened telemetry record `{ guid, map, x, y, z }`; `z` may be absent
(the source reads it as `p.z || 0`). -/
structure PlayerRec where
  guid : SValue
  map : SValue
  x : ℚ
  y : ℚ
  z : Option ℚ
deriving DecidableEq, Repr

/-- One computed nearby entry (part_001 lines 143-151 build
`{ guid, x, y, z, distance }`).  The source stores the Euclidean distance
`Math.hypot(dx, dy, dz)`; the model stores its square `distSq`, and renders the
source comparison `distance <= 150` as `distSq <= 150 ^ 2`, which is equivalent
over nonnegative reals. -/
structure NearbyRec where
  guid : SValue
  x : ℚ
  y : ℚ
  z : ℚ
  distSq : ℚ
deriving DecidableEq, Repr

/-- `all.find(p => String(p.guid) === String(guid))` (part_001 line 132). -/
def findSelf (all : List PlayerRec) (guid : SValue) : Option PlayerRec :=
  all.find? (fun p => jsStrEq p.guid guid)

/-- Squared distance between a telemetry record and the self record, with the
`(p.z || 0) - (self.z || 0)` default (part_001 lines 146-150). -/
def distSqTo (self p : PlayerRec) : ℚ :=
  (p.x - self.x) ^ 2 + (p.y - self.y) ^ 2 + (p.z.getD 0 - self.z.getD 0) ^ 2

/-- The nearby-set computation of part_001 lines 141-152:
`all.filter(p => p.guid !== guid && String(p.map) === String(self.map))
    .map(p => ({guid, x, y, z: p.z || 0, distance: hypot(...)}))
    .filter(p => p.distance <= 150)`.
Note the first filter uses JS strict inequality on `p.guid`, not the
string-coerced comparison used to locate `self`. -/
def computeNearby (all : List PlayerRec) (guid : SValue) (self : PlayerRec) : List NearbyRec :=
  ((all.filter (fun p => !sEq p.guid guid && jsStrEq p.map self.map)).map
    (fun p => { guid := p.guid, x := p.x, y := p.y, z := p.z.getD 0,
                distSq := distSqTo self p })).filter
    (fun p => p.distSq ≤ 150 ^ 2)

/-! ## The per-peer audio graph and its reconciliation -/

/-- One entry of the `audioContexts` map (part_001 line 24: guid maps to
`{ stereoPanner, source, el }`).  `nodeId` identifies the concrete node chain
allocated for this peer, so that creation of a fresh chain is observable;
`pan` is the value last written to the stereo panner. -/
structure GraphEntry where
  nodeId : Nat
  pan : ℚ
deriving DecidableEq, Repr

/-- The `audioContexts` map, keyed by peer guid; insertion order preserved,
as in a JS `Map`. -/
abbrev AudioMap := List (SValue × GraphEntry)

/-- `audioContexts.get(k)`: first entry whose key equals `k`. -/
def lookupA : AudioMap → SValue → Option GraphEntry
  | [], _ => none
  | e :: t, k => if e.1 = k then some e.2 else lookupA t k

/-- Overwrite the value stored at key `k` (a JS `Map.set` on a present key:
order and key set unchanged). -/
def setA : AudioMap → SValue → GraphEntry → AudioMap
  | [], _, _ => []
  | e :: t, k, v => (if e.1 = k then (e.1, v) else e) :: setA t k v

/-- The pan value written for peer `p` (part_001 lines 190-192):
`let pan = (p.x - self.x) / panRange; pan = Math.max(-1, Math.min(1, pan))`
with `panRange = 5`. -/
def panOf (self : PlayerRec) (p : NearbyRec) : ℚ :=
  max (-1) (min 1 ((p.x - self.x) / 5))

/-- One iteration of the `peers.forEach` reconcile body (part_001 lines
164-203), for the peer audio graph map.  `env p.guid = true` abstracts the
environment guards of the body: the LiveKit participant for that guid exists,
it has a live audio track publication, and the `<audio data-guid>` element is
rendered.  When the map has no entry for the guid, a fresh node chain is
allocated (`createMediaElementSource` / `createStereoPanner`, counted by the
allocation counter) and appended; when an entry exists, only its panner value
is rewritten. -/
def reconcileStep (env : SValue → Bool) (self : PlayerRec)
    (st : Nat × AudioMap) (p : NearbyRec) : Nat × AudioMap :=
  if env p.guid then
    match lookupA st.2 p.guid with
    | none =>
        (st.1 + 1, st.2 ++ [(p.guid, { nodeId := st.1, pan := panOf self p })])
    | some e =>
        (st.1, setA st.2 p.guid { nodeId := e.nodeId, pan := panOf self p })
  else st

/-- The whole `peers.forEach(...)` reconcile pass of part_001 lines 164-204
(part_002 lines 152-192 is the same structure with an extra gain node in each
entry). -/
def reconcile (env : SValue → Bool) (self : PlayerRec)
    (st : Nat × AudioMap) (peers : List NearbyRec) : Nat × AudioMap :=
  peers.foldl (reconcileStep env self) st

/-! ## Token fetch and the LiveKit session join -/

/-- Shape of the parsed JSON body of the token response, as far as
`tokenStr = typeof json.token === "string" ? json.token : json.token?.token`
inspects it: the `token` field is a primitive, an object (whose own `token`
member, if any, is a primitive), or absent / null-like. -/
inductive TokenJson where
  | missing
  | prim (v : SValue)
  | objTok (inner : Option SValue)
deriving DecidableEq, Repr

/-- Outcome of the `fetch` of `POST {TOKEN_SERVICE_URL}/token`: the HTTP
`res.ok` flag and the parsed body. -/
structure FetchResult where
  ok : Bool
  json : TokenJson
deriving DecidableEq, Repr

/-- The token extraction of part_001 lines 73-76:
`if (!res.ok) throw; tokenStr = typeof json.token === "string" ? json.token : json.token?.token;
if (!tokenStr) throw`.  `none` means the enclosing `catch` runs and the join
aborts.  Note a non-string truthy `json.token.token` (for example a number) is
accepted, and a falsy string is rejected, exactly as the truthiness test does. -/
def extractToken (r : FetchResult) : Option SValue :=
  if !r.ok then none
  else
    match r.json with
    | .missing => none
    | .prim (.str s) => if s == "" then none else some (.str s)
    | .prim (.num _) => none
    | .objTok none => none
    | .objTok (some v) => if jsTruthy v then some v else none

/-- Events emitted by a run of `joinLivekitRoom` / `handleProximityUpdate`,
recording the externally visible actions in order. -/
inductive Ev where
  | evDisconnect (roomId : Nat)
  | evTokenFetch
  | evCreateRoom (roomId : Nat)
  | evConnect (roomId : Nat)
  | evReconcile
deriving DecidableEq, Repr

/-- The mutable state of one `usePlayerPositionEmitter()` instance (part_001
lines 12-24).  Rooms are identified by allocation number so that creating a new
`Room` is observable; `localTrack` stores the published track muted flag. -/
structure EmitterState where
  guid : Option SValue
  nearbyPlayers : List NearbyRec
  livekitRoom : Option Nat
  nextRoomId : Nat
  currentMap : Option SValue
  localTrack : Option Bool
  connectionStatus : String
  muted : Bool
  deafened : Bool
  sharedCtx : Bool
  audioCounter : Nat
  audioContexts : AudioMap
deriving DecidableEq, Repr

/-- `currentMap === mapId` (strict equality; `currentMap` starts as `null`,
which is strictly equal to no primitive). -/
def optSEq (o : Option SValue) (v : SValue) : Bool :=
  match o with
  | some m => sEq m v
  | none => false

/-- `joinLivekitRoom(mapId)` of part_001 lines 54-126 as a state transition.
`fetch` is the observed outcome of the token request and `connectOk` the
observed outcome of the `createLocalAudioTrack` / `connect` / `publishTrack`
block.  Event handlers installed on a room (`connected` -> status `Connected`,
`disconnected` -> status `Disconnected`) are modelled as firing at the
corresponding operation.  On a failed connect the code leaves `livekitRoom`
holding the fresh room and `currentMap` unchanged, as the source does. -/
def joinLivekitRoom (s : EmitterState) (mapId : SValue) (fetch : FetchResult)
    (connectOk : Bool) : EmitterState × List Ev :=
  if s.livekitRoom.isSome && optSEq s.currentMap mapId then (s, [])
  else
    let s1 := { s with connectionStatus := "Connecting..." }
    let (s2, ev1) :=
      match s1.livekitRoom with
      | some r =>
          ({ s1 with livekitRoom := none, connectionStatus := "Disconnected" },
           [Ev.evDisconnect r])
      | none => (s1, [])
    match extractToken fetch with
    | none => (s2, ev1 ++ [Ev.evTokenFetch])
    | some _tok =>
        let rid := s2.nextRoomId
        let s3 := { s2 with livekitRoom := some rid, nextRoomId := rid + 1 }
        if connectOk then
          ({ s3 with localTrack := some s3.muted, currentMap := some mapId,
                     connectionStatus := "Connected" },
           ev1 ++ [Ev.evTokenFetch, Ev.evCreateRoom rid, Ev.evConnect rid])
        else
          (s3, ev1 ++ [Ev.evTokenFetch, Ev.evCreateRoom rid])

/-- Count of live sessions after an event list, starting from `n` live
sessions: `evCreateRoom` opens one, `evDisconnect` closes one. -/
def liveCount (n : Nat) : List Ev → Nat
  | [] => n
  | Ev.evCreateRoom _ :: es => liveCount (n + 1) es
  | Ev.evDisconnect _ :: es => liveCount (n - 1) es
  | _ :: es => liveCount n es

/-- Number of live sessions held by a state. -/
def roomCount (s : EmitterState) : Nat :=
  if s.livekitRoom.isSome then 1 else 0

/-! ## The proximity snapshot handler -/

/-- The parsed payload of one socket message, as far as
`typeof data !== "object"` and `Object.values(data).flat()` inspect it. -/
inductive ProxData where
  | obj (groups : List (List PlayerRec))
  | nonObject
deriving DecidableEq, Repr

/-- `typeof data === "object"`. -/
def ProxData.isObj : ProxData → Bool
  | .obj _ => true
  | .nonObject => false

/-- An uncaught JS runtime error aborting the rest of the handler. -/
inductive JsErr where
  | typeError
deriving DecidableEq, Repr

/-- `handleProximityUpdate(data)` of part_001 lines 128-205 as a state
transition.  Besides the new state it yields the emitted events and an
`Option JsErr`: `some .typeError` marks the uncaught
`livekitRoom.getParticipantByIdentity` dereference of line 165 when
`livekitRoom` is null and the peer loop is entered (the handler is async, so
this surfaces as a rejected promise).  `fetch` / `connectOk` are the observed
I/O outcomes of the inner `joinLivekitRoom`; `env` abstracts which peer guids
currently have a live participant, audio track and element. -/
def handleProximityUpdate (s : EmitterState) (data : ProxData)
    (fetch : FetchResult) (connectOk : Bool) (env : SValue → Bool) :
    EmitterState × List Ev × Option JsErr :=
  match s.guid with
  | none => (s, [], none)
  | some g =>
      if !jsTruthy g then (s, [], none)
      else
        match data with
        | .nonObject => (s, [], none)
        | .obj groups =>
            let all := groups.flatten
            match findSelf all g with
            | none =>
                ({ s with connectionStatus := "Disconnected - Character[Offline]" },
                 [], none)
            | some self =>
                let sA := { s with connectionStatus := "Connected" }
                let peers := computeNearby all g self
                let sB := { sA with nearbyPlayers := peers }
                let (sC, evJoin) := joinLivekitRoom sB self.map fetch connectOk
                let sD := { sC with sharedCtx := true }
                match sD.livekitRoom with
                | none =>
                    if peers.isEmpty then (sD, evJoin, none)
                    else (sD, evJoin, some JsErr.typeError)
                | some _ =>
                    let (c, m) := reconcile env self (sD.audioCounter, sD.audioContexts) peers
                    ({ sD with audioCounter := c, audioContexts := m },
                     evJoin ++ [Ev.evReconcile], none)

/-! ## The telemetry feed socket and its reconnect timer -/

/-- `WebSocket.readyState` as the reconnect guard reads it. -/
inductive SockSt where
  | connecting
  | opened
  | closed
deriving DecidableEq, Repr

/-- The feed-owned mutable state (part_001 lines 13-15): the current socket
(identified by creation number plus its ready state), the `reconnectTimer`
variable, and the multiset of scheduled, uncancelled, unfired timers.  A
`setTimeout` id is recorded both in the pending list and in the variable;
`clearTimeout(reconnectTimer)` removes only the id held by the variable. -/
structure FeedState where
  guid : Option SValue
  sock : Option (Nat × SockSt)
  nextSock : Nat
  pendingTimers : List (Nat × Nat)
  reconnectTimer : Option Nat
  nextTimer : Nat
deriving DecidableEq, Repr

/-- The fixed reconnect delay of part_001 line 44, in milliseconds. -/
def reconnectDelayMs : Nat := 2000

/-- `connectToProximitySocket()` of part_001 lines 32-52: no-op when the guid
is unset (falsy) or the current socket is connecting or open; otherwise the
`ws` variable is replaced by a fresh `WebSocket` (whose `onopen`, `onclose`,
`onmessage` handlers are installed at creation and never removed). -/
def connectToProximitySocket (s : FeedState) : FeedState :=
  match s.guid with
  | none => s
  | some g =>
      if !jsTruthy g then s
      else
        match s.sock with
        | some (_, SockSt.connecting) => s
        | some (_, SockSt.opened) => s
        | _ => { s with sock := some (s.nextSock, SockSt.connecting),
                        nextSock := s.nextSock + 1 }

/-- Scheduler-level actions delivered to the feed: socket lifecycle events,
timer expiry, and the entry points the component exposes. -/
inductive FeedAct where
  | connect
  | sockOpened
  | sockClosed (sid : Nat)
  | timerFired (tid : Nat)
  | dispose
deriving DecidableEq, Repr

/-- One cooperative step of the feed.
`sockClosed sid` runs the `onclose` handler installed at socket creation
(part_001 lines 42-45): it always schedules
`reconnectTimer = setTimeout(connectToProximitySocket, 2000)` - dispose does
not detach it.  `timerFired tid` runs a timer only if it is still pending.
`dispose` (part_001 lines 240-242) does `clearTimeout(reconnectTimer)` and
`ws?.close()`; the close event for that socket is delivered later as its own
`sockClosed` action, exactly as the browser queues it. -/
def feedStep (s : FeedState) : FeedAct → FeedState
  | FeedAct.connect => connectToProximitySocket s
  | FeedAct.sockOpened =>
      match s.sock with
      | some (i, SockSt.connecting) => { s with sock := some (i, SockSt.opened) }
      | _ => s
  | FeedAct.sockClosed sid =>
      let s1 :=
        match s.sock with
        | some (i, _) => if i = sid then { s with sock := some (i, SockSt.closed) } else s
        | none => s
      { s1 with pendingTimers := s1.pendingTimers ++ [(s1.nextTimer, reconnectDelayMs)],
                reconnectTimer := some s1.nextTimer,
                nextTimer := s1.nextTimer + 1 }
  | FeedAct.timerFired tid =>
      if (s.pendingTimers.map Prod.fst).contains tid then
        connectToProximitySocket
          { s with pendingTimers := s.pendingTimers.filter (fun t => t.1 ≠ tid) }
      else s
  | FeedAct.dispose =>
      let s1 :=
        match s.reconnectTimer with
        | some t => { s with pendingTimers := s.pendingTimers.filter (fun u => u.1 ≠ t) }
        | none => s
      match s1.sock with
      | some (i, _) => { s1 with sock := some (i, SockSt.closed) }
      | none => s1

/-- Run a sequence of feed actions. -/
def feedRun (s : FeedState) (acts : List FeedAct) : FeedState :=
  acts.foldl feedStep s

/-! ## Concrete fixture states used by witnesses and counterexamples -/

/-- A fresh emitter state: guid registered, nothing connected. -/
def s0disc : EmitterState :=
  { guid := some (SValue.num 1), nearbyPlayers := [], livekitRoom := none,
    nextRoomId := 0, currentMap := none, localTrack := none,
    connectionStatus := "Disconnected", muted := false, deafened := false,
    sharedCtx := false, audioCounter := 0, audioContexts := [] }

/-- An emitter state already connected to the room of map `"A"`. -/
def s1conn : EmitterState :=
  { guid := some (SValue.num 1), nearbyPlayers := [], livekitRoom := some 0,
    nextRoomId := 1, currentMap := some (SValue.str "A"), localTrack := some false,
    connectionStatus := "Connected", muted := false, deafened := false,
    sharedCtx := true, audioCounter := 0, audioContexts := [] }

/-- A concrete nearby entry: peer 2 at offset (3,4,0), squared distance 25. -/
def e0near : NearbyRec := { guid := SValue.num 2, x := 3, y := 4, z := 0, distSq := 25 }

/-- An emitter state holding a non-empty nearby list from an earlier snapshot. -/
def sNearby : EmitterState :=
  { s0disc with nearbyPlayers := [e0near] }

/-- A fresh feed state with the guid registered and no socket yet. -/
def f0feed : FeedState :=
  { guid := some (SValue.num 7), sock := none, nextSock := 0,
    pendingTimers := [], reconnectTimer := none, nextTimer := 0 }

/-! ## Claim theorems -/

/-- C1: the claim says the state `{muted := false, deafened := true}` is never
reached by any sequence of mute/deafen transitions.  The `useVoiceControl`
transitions reach it: one `toggleMute` from the composable initial state
`{muted := true, deafened := true}` yields it, and one `toggleDeafen` from
`{muted := false, deafened := false}` yields it too; the deafened-implies-muted
invariant fails on both results.  By contrast, the `ProximityDashboard.vue`
watcher machine preserves the invariant along every transition out of an
invariant-satisfying state, which is the behaviour the claim describes. -/
theorem uvc_reaches_deafened_unmuted :
    (toggleMute uvcInit = ⟨false, true⟩ ∧
     toggleDeafen ⟨false, false⟩ = ⟨false, true⟩ ∧
     ¬ voiceInv (toggleMute uvcInit) ∧
     ¬ voiceInv (toggleDeafen ⟨false, false⟩)) ∧
    (∀ (s : VoiceState) (v : Bool), voiceInv s →
      voiceInv (dashSetMuted s v) ∧ voiceInv (dashSetDeafened s v)) := by
  constructor
  · decide
  · intro s v
    rcases s with ⟨m, d⟩
    cases m <;> cases d <;> cases v <;> exact fun h => (by revert h; decide)

/-- C1 witness: the theorem applied at the deafened-and-muted state and a
mute-checkbox clear. -/
theorem uvc_reaches_deafened_unmuted_witness :
    voiceInv (dashSetMuted ⟨true, true⟩ false) ∧
    voiceInv (dashSetDeafened ⟨true, true⟩ false) :=
  uvc_reaches_deafened_unmuted.2 ⟨true, true⟩ false (by decide)

/-- C8 (counterexample): in the dashboard watcher machine, deafening from
`{muted := false, deafened := false}` and then un-deafening does not restore
`muted = false`: the final state is `{muted := true, deafened := false}`. -/
theorem dash_undeafen_not_restoring :
    dashSetDeafened (dashSetDeafened ⟨false, false⟩ true) false = ⟨true, false⟩ ∧
    dashSetDeafened (dashSetDeafened ⟨false, false⟩ true) false ≠ ⟨false, false⟩ := by
  decide

/-- C8 (amended): from `{muted := false, deafened := false}`,
`setDeafened(true)` yields `{muted := true, deafened := true}`, and the
subsequent `setDeafened(false)` yields `{muted := true, deafened := false}`:
deafened is cleared but the mute forced by deafening remains set. -/
theorem dash_deafen_undeafen_sequence :
    dashSetDeafened ⟨false, false⟩ true = ⟨true, true⟩ ∧
    dashSetDeafened ⟨true, true⟩ false = ⟨true, false⟩ := by
  decide

/-- C3: the applied volume is 1 for distances up to the near threshold 5,
0 from the far threshold 150 on, the linear interpolation
`1 - (d - 5)/(150 - 5)` strictly between them, always lies in `[0, 1]`,
and in particular a peer at distance 5 gets volume 1. -/
theorem appliedVolume_piecewise (d : ℚ) (hd : 0 ≤ d) :
    (d ≤ 5 → appliedVolume d = 1) ∧
    (150 ≤ d → appliedVolume d = 0) ∧
    (5 < d → d < 150 → appliedVolume d = 1 - (d - 5) / (150 - 5)) ∧
    0 ≤ appliedVolume d ∧ appliedVolume d ≤ 1 ∧
    appliedVolume 5 = 1 := by
  refine ⟨?_, ?_, ?_, ?_, ?_, ?_⟩
  · intro h
    simp only [appliedVolume]
    rw [if_pos h]
    norm_num
  · intro h
    have h5 : ¬ d ≤ 5 := by linarith
    simp only [appliedVolume]
    rw [if_neg h5, if_pos h]
    norm_num
  · intro h5 h150
    have hn5 : ¬ d ≤ 5 := by linarith
    have hn150 : ¬ (150 : ℚ) ≤ d := by linarith
    simp only [appliedVolume]
    rw [if_neg hn5, if_neg hn150]
    have hq1 : (d - 5) / (150 - 5) ≤ 1 := by
      rw [div_le_one (by norm_num : (0:ℚ) < 150 - 5)]
      linarith
    have hq0 : 0 ≤ (d - 5) / (150 - 5) := by
      apply div_nonneg <;> linarith
    rw [min_eq_right (by linarith), max_eq_right (by linarith)]
  · exact le_max_left 0 _
  · exact max_le (by norm_num) (min_le_left 1 _)
  · norm_num [appliedVolume]

/-- C3 witness: the theorem applied at the concrete distance 5. -/
theorem appliedVolume_piecewise_witness :
    appliedVolume 5 = 1 :=
  (appliedVolume_piecewise 5 (by norm_num)).1 (le_refl 5)

/-- C2 (amended): every entry of the computed nearby set comes from a record of
the snapshot whose map coincides with the self map under string coercion, has
squared distance at most `150 ^ 2`, and its guid differs from the stored guid
under JavaScript strict equality - which is weaker than differing under string
coercion, so a differently-represented self guid is not excluded. -/
theorem nearby_entries_filtered (all : List PlayerRec) (guid : SValue)
    (self : PlayerRec) (e : NearbyRec) (he : e ∈ computeNearby all guid self) :
    sEq e.guid guid = false ∧ e.distSq ≤ 150 ^ 2 ∧
    ∃ p ∈ all, p.guid = e.guid ∧ jsStrEq p.map self.map = true := by
  unfold computeNearby at he
  rw [List.mem_filter] at he
  obtain ⟨hmem, hdist⟩ := he
  rw [List.mem_map] at hmem
  obtain ⟨p, hp, rfl⟩ := hmem
  rw [List.mem_filter] at hp
  obtain ⟨hpall, hcond⟩ := hp
  rw [Bool.and_eq_true] at hcond
  obtain ⟨hne, hmap⟩ := hcond
  refine ⟨by simpa using hne, by simpa using hdist, p, hpall, rfl, hmap⟩

/-- C2 witness: the theorem applied to a two-record snapshot in which peer 2
stands at offset (3, 4, 0) from self 1 on the same map. -/
theorem nearby_entries_filtered_witness :
    sEq (NearbyRec.mk (SValue.num 2) 3 4 0 25).guid (SValue.num 1) = false ∧
    (NearbyRec.mk (SValue.num 2) 3 4 0 25).distSq ≤ 150 ^ 2 ∧
    ∃ p ∈ [PlayerRec.mk (SValue.num 1) (SValue.str "A") 0 0 none,
           PlayerRec.mk (SValue.num 2) (SValue.str "A") 3 4 (some 0)],
      p.guid = (NearbyRec.mk (SValue.num 2) 3 4 0 25).guid ∧
      jsStrEq p.map (PlayerRec.mk (SValue.num 1) (SValue.str "A") 0 0 none).map = true :=
  nearby_entries_filtered
    [PlayerRec.mk (SValue.num 1) (SValue.str "A") 0 0 none,
     PlayerRec.mk (SValue.num 2) (SValue.str "A") 3 4 (some 0)]
    (SValue.num 1)
    (PlayerRec.mk (SValue.num 1) (SValue.str "A") 0 0 none)
    (NearbyRec.mk (SValue.num 2) 3 4 0 25)
    (by norm_num [computeNearby, distSqTo, sEq, jsStrEq, jsToString, numToStr, List.filter])

/-- C2 (counterexample): with the stored guid the number 42 and the payload
carrying the guid as the string "42", the self lookup succeeds (string
coercion) but the strict-inequality filter does not exclude the self record:
the local player appears in its own nearby set. -/
theorem nearby_includes_self_cex :
    findSelf [PlayerRec.mk (SValue.str "42") (SValue.str "A") 0 0 none] (SValue.num 42)
      = some (PlayerRec.mk (SValue.str "42") (SValue.str "A") 0 0 none) ∧
    (computeNearby [PlayerRec.mk (SValue.str "42") (SValue.str "A") 0 0 none]
        (SValue.num 42) (PlayerRec.mk (SValue.str "42") (SValue.str "A") 0 0 none)).map
        NearbyRec.guid = [SValue.str "42"] ∧
    jsStrEq (SValue.str "42") (SValue.num 42) = true := by
  refine ⟨?_, ?_, ?_⟩
  · norm_num [findSelf, jsStrEq, jsToString, numToStr, List.find?]
    rfl
  · norm_num [computeNearby, distSqTo, sEq, jsStrEq, jsToString, numToStr, List.filter]
  · norm_num [jsStrEq, jsToString, numToStr]
    rfl

/-- C4 (amended): when the token fetch fails per the test the code makes (non-2xx
status, or no truthy token extracted from `json.token` / `json.token.token`),
`joinLivekitRoom` from a disconnected state aborts: it returns normally, with
no room object created and no connect attempted, but leaves the exposed status
at "Connecting..." instead of reverting it to "Disconnected". -/
theorem join_token_failure_aborts (s : EmitterState) (mapId : SValue)
    (fetch : FetchResult) (connectOk : Bool)
    (hroom : s.livekitRoom = none) (hfail : extractToken fetch = none) :
    joinLivekitRoom s mapId fetch connectOk
      = ({ s with connectionStatus := "Connecting..." }, [Ev.evTokenFetch]) := by
  simp [joinLivekitRoom, hroom, hfail]

/-- C4 witness: the theorem applied to the fresh disconnected state and a
failed (HTTP error) fetch. -/
theorem join_token_failure_aborts_witness :
    joinLivekitRoom s0disc (SValue.num 7) ⟨false, TokenJson.missing⟩ true
      = ({ s0disc with connectionStatus := "Connecting..." }, [Ev.evTokenFetch]) :=
  join_token_failure_aborts s0disc (SValue.num 7) ⟨false, TokenJson.missing⟩ true rfl rfl

/-- C4 (counterexample): after a failed token fetch from the disconnected
state the exposed status reads "Connecting...", not "Disconnected"; and a 2xx
payload of shape `{token: {token: 5}}` - which is neither `{token: string}`
nor `{token: {token: string}}` - does not abort the attempt: a room object is
created. -/
theorem join_token_failure_cex :
    (joinLivekitRoom s0disc (SValue.num 7) ⟨false, TokenJson.missing⟩ true).1.connectionStatus
        = "Connecting..." ∧
    (joinLivekitRoom s0disc (SValue.num 7) ⟨false, TokenJson.missing⟩ true).1.connectionStatus
        ≠ "Disconnected" ∧
    (joinLivekitRoom s0disc (SValue.num 7) ⟨false, TokenJson.missing⟩ true).1.livekitRoom = none ∧
    (joinLivekitRoom s0disc (SValue.num 7)
        ⟨true, TokenJson.objTok (some (SValue.num 5))⟩ true).1.livekitRoom = some 0 := by
  refine ⟨?_, ?_, ?_, ?_⟩
  · norm_num [joinLivekitRoom, s0disc, extractToken]
  · norm_num [joinLivekitRoom, s0disc, extractToken]
    decide
  · norm_num [joinLivekitRoom, s0disc, extractToken]
  · norm_num [joinLivekitRoom, s0disc, extractToken, jsTruthy]

/-- C5: a `joinLivekitRoom` call that targets the zone the controller is
already connected to changes nothing and emits no action at all; and along
every call, every prefix of the emitted action sequence keeps the number of
live sessions at most one (an existing session is disconnected before any new
room is created). -/
theorem join_single_session (s : EmitterState) (mapId : SValue)
    (fetch : FetchResult) (connectOk : Bool) :
    (s.livekitRoom.isSome = true → optSEq s.currentMap mapId = true →
        joinLivekitRoom s mapId fetch connectOk = (s, [])) ∧
    (∀ n : Nat,
        liveCount (roomCount s) (((joinLivekitRoom s mapId fetch connectOk).2).take n) ≤ 1) := by
  constructor
  · intro h1 h2
    simp [joinLivekitRoom, h1, h2]
  · intro n
    rcases hr : s.livekitRoom with _ | r
    · have hrc : roomCount s = 0 := by simp [roomCount, hr]
      rcases he : extractToken fetch with _ | tok
      · simp only [joinLivekitRoom, hr, he, Option.isSome_none, Bool.false_and,
          Bool.false_eq_true, if_false, List.nil_append]
        rw [hrc]
        rcases n with _ | n <;> simp [liveCount, List.take]
      · cases connectOk
        · simp only [joinLivekitRoom, hr, he, Option.isSome_none, Bool.false_and,
            Bool.false_eq_true, if_false, List.nil_append]
          rw [hrc]
          rcases n with _ | _ | n <;> simp [liveCount, List.take]
        · simp only [joinLivekitRoom, hr, he, Option.isSome_none, Bool.false_and,
            Bool.false_eq_true, if_false, List.nil_append]
          rw [hrc]
          rcases n with _ | _ | _ | n <;> simp [liveCount, List.take]
    · have hrc : roomCount s = 1 := by simp [roomCount, hr]
      by_cases hm : optSEq s.currentMap mapId = true
      · simp only [joinLivekitRoom, hr, hm, Option.isSome_some, Bool.true_and, if_true]
        rw [hrc]
        simp [liveCount, List.take]
      · have hm2 : optSEq s.currentMap mapId = false := by
          cases hq : optSEq s.currentMap mapId
          · rfl
          · exact absurd hq hm
        rcases he : extractToken fetch with _ | tok
        · simp only [joinLivekitRoom, hr, hm2, Option.isSome_some, Bool.true_and,
            Bool.false_eq_true, if_false, he]
          rw [hrc]
          rcases n with _ | _ | n <;> simp [liveCount, List.take]
        · cases connectOk
          · simp only [joinLivekitRoom, hr, hm2, Option.isSome_some, Bool.true_and,
              Bool.false_eq_true, if_false, he]
            rw [hrc]
            rcases n with _ | _ | _ | n <;> simp [liveCount, List.take]
          · simp only [joinLivekitRoom, hr, hm2, Option.isSome_some, Bool.true_and,
              Bool.false_eq_true, if_false, he]
            rw [hrc]
            rcases n with _ | _ | _ | _ | n <;> simp [liveCount, List.take]

/-- C5 witness: the theorem applied to a state connected to the room of map
"A" and a call for the same map. -/
theorem join_single_session_witness :
    joinLivekitRoom s1conn (SValue.str "A") ⟨false, TokenJson.missing⟩ true = (s1conn, []) ∧
    liveCount (roomCount s1conn)
        (((joinLivekitRoom s1conn (SValue.str "A") ⟨false, TokenJson.missing⟩ true).2).take 1) ≤ 1 :=
  ⟨(join_single_session s1conn (SValue.str "A") ⟨false, TokenJson.missing⟩ true).1 rfl rfl,
   (join_single_session s1conn (SValue.str "A") ⟨false, TokenJson.missing⟩ true).2 1⟩

/-- C7 (amended): on a snapshot whose flattened records contain no sample
matching the local guid (under string coercion), the handler sets the status
to the self-offline marker and returns: the nearby list is left unchanged (it
is not cleared), no zone-ensure or reconcile action is emitted, and the
session field is untouched. -/
theorem handle_self_offline (s : EmitterState) (groups : List (List PlayerRec))
    (fetch : FetchResult) (connectOk : Bool) (env : SValue → Bool) (g : SValue)
    (hg : s.guid = some g) (ht : jsTruthy g = true)
    (hself : findSelf groups.flatten g = none) :
    handleProximityUpdate s (ProxData.obj groups) fetch connectOk env
      = ({ s with connectionStatus := "Disconnected - Character[Offline]" }, [], none) := by
  simp [handleProximityUpdate, hg, ht, hself]

/-- C7 witness: the theorem applied to a state holding a non-empty nearby list
and a snapshot with one empty group. -/
theorem handle_self_offline_witness :
    handleProximityUpdate sNearby (ProxData.obj [[]]) ⟨false, TokenJson.missing⟩ true
        (fun _ => false)
      = ({ sNearby with connectionStatus := "Disconnected - Character[Offline]" }, [], none) :=
  handle_self_offline sNearby [[]] ⟨false, TokenJson.missing⟩ true (fun _ => false)
    (SValue.num 1) rfl (by norm_num [jsTruthy]) rfl

/-- C7 (counterexample): with a non-empty nearby list left over from an
earlier snapshot, a self-less snapshot leaves the nearby list non-empty - the
handler does not clear it to empty as the claim states. -/
theorem handle_self_offline_cex :
    (handleProximityUpdate sNearby (ProxData.obj [[]]) ⟨false, TokenJson.missing⟩ true
        (fun _ => false)).1.nearbyPlayers = [e0near] ∧
    (handleProximityUpdate sNearby (ProxData.obj [[]]) ⟨false, TokenJson.missing⟩ true
        (fun _ => false)).1.nearbyPlayers ≠ [] ∧
    (handleProximityUpdate sNearby (ProxData.obj [[]]) ⟨false, TokenJson.missing⟩ true
        (fun _ => false)).1.connectionStatus = "Disconnected - Character[Offline]" := by
  refine ⟨?_, ?_, ?_⟩ <;>
    norm_num [handleProximityUpdate, sNearby, s0disc, jsTruthy, findSelf, e0near]

/-- C10: when the local guid is unset or the parsed payload is not an object,
the handler returns with the state unchanged, no action emitted and no error:
the nearby list, status, session and audio map are all left exactly as they
were. -/
theorem handle_guard_frame (s : EmitterState) (data : ProxData) (fetch : FetchResult)
    (connectOk : Bool) (env : SValue → Bool)
    (h : s.guid = none ∨ data.isObj = false) :
    handleProximityUpdate s data fetch connectOk env = (s, [], none) := by
  rcases h with h | h
  · simp [handleProximityUpdate, h]
  · cases data with
    | obj groups => simp [ProxData.isObj] at h
    | nonObject =>
        cases hg : s.guid with
        | none => simp [handleProximityUpdate, hg]
        | some g => simp [handleProximityUpdate, hg]

/-- C10 witness: the theorem applied to a state with no guid set. -/
theorem handle_guard_frame_witness :
    handleProximityUpdate { s0disc with guid := none } (ProxData.obj [])
        ⟨false, TokenJson.missing⟩ true (fun _ => false)
      = ({ s0disc with guid := none }, [], none) :=
  handle_guard_frame { s0disc with guid := none } (ProxData.obj [])
    ⟨false, TokenJson.missing⟩ true (fun _ => false) (Or.inl rfl)

/-- Key list of the audio map is unchanged by an in-place overwrite. -/
theorem setA_keys (m : AudioMap) (k : SValue) (v : GraphEntry) :
    (setA m k v).map Prod.fst = m.map Prod.fst := by
  induction m with
  | nil => rfl
  | cons e t ih =>
      by_cases h : e.1 = k
      · simp [setA, h, ih]
      · simp [setA, h, ih]

/-- Lookup after an in-place overwrite: the overwritten key reads the new
value when it was present, every other key is untouched. -/
theorem lookupA_setA (m : AudioMap) (k : SValue) (v : GraphEntry) (k2 : SValue) :
    lookupA (setA m k v) k2 =
      if k2 = k then Option.map (fun _ => v) (lookupA m k) else lookupA m k2 := by
  induction m with
  | nil => by_cases h : k2 = k <;> simp [setA, lookupA, h]
  | cons e t ih =>
      by_cases hek : e.1 = k
      · by_cases hk2 : k2 = k
        · subst hk2
          simp [setA, lookupA, hek]
        · have hne : ¬ e.1 = k2 := by
            rw [hek]
            exact fun hh => hk2 hh.symm
          have hks : ¬ k = k2 := fun hh => hk2 hh.symm
          simp [setA, lookupA, hek, hk2, hne, hks, ih]
      · by_cases hk2 : k2 = k
        · subst hk2
          simp [setA, lookupA, hek, ih]
        · by_cases he2 : e.1 = k2
          · simp [setA, lookupA, hek, hk2, he2]
          · simp [setA, lookupA, hek, hk2, he2, ih]

/-- Lookup distributes over append when the key is absent on the left. -/
theorem lookupA_append_of_none (m1 m2 : AudioMap) (k : SValue)
    (h : lookupA m1 k = none) : lookupA (m1 ++ m2) k = lookupA m2 k := by
  induction m1 with
  | nil => simp [lookupA]
  | cons e t ih =>
      by_cases hk : e.1 = k
      · simp [lookupA, hk] at h
      · simp only [lookupA, hk, if_false, List.cons_append] at h ⊢
        exact ih h

/-- Lookup distributes over append when the key is present on the left. -/
theorem lookupA_append_of_some (m1 m2 : AudioMap) (k : SValue) (v : GraphEntry)
    (h : lookupA m1 k = some v) : lookupA (m1 ++ m2) k = some v := by
  induction m1 with
  | nil => simp [lookupA] at h
  | cons e t ih =>
      by_cases hk : e.1 = k
      · simp only [lookupA, hk, if_true] at h
        simp only [List.cons_append, lookupA, hk, if_true]
        exact h
      · simp only [lookupA, hk, if_false] at h
        simp only [List.cons_append, lookupA, hk, if_false]
        exact ih h

/-- A reconcile pass over a cons peels one step. -/
theorem reconcile_cons (env : SValue → Bool) (self : PlayerRec)
    (st : Nat × AudioMap) (p : NearbyRec) (t : List NearbyRec) :
    reconcile env self st (p :: t) = reconcile env self (reconcileStep env self st p) t := rfl

/-- One reconcile step never removes a key from the audio map. -/
theorem step_preserves_isSome (env : SValue → Bool) (self : PlayerRec)
    (st : Nat × AudioMap) (p : NearbyRec) (k : SValue)
    (h : (lookupA st.2 k).isSome = true) :
    (lookupA (reconcileStep env self st p).2 k).isSome = true := by
  by_cases he : env p.guid = true
  · rcases hle : lookupA st.2 p.guid with _ | e
    · simp only [reconcileStep, he, hle, if_true]
      rcases hk : lookupA st.2 k with _ | v
      · rw [hk] at h
        simp at h
      · rw [lookupA_append_of_some st.2 _ k v hk]
        rfl
    · simp only [reconcileStep, he, hle, if_true]
      rw [lookupA_setA]
      by_cases hkp : k = p.guid
      · simp [hkp, hle]
      · simp only [hkp, if_false]
        exact h
  · have he2 : env p.guid = false := by
      cases hq : env p.guid
      · rfl
      · exact absurd hq he
    simp only [reconcileStep, he2, Bool.false_eq_true, if_false]
    exact h

/-- A whole reconcile pass never removes a key from the audio map. -/
theorem reconcile_preserves_isSome (env : SValue → Bool) (self : PlayerRec)
    (ps : List NearbyRec) : ∀ (st : Nat × AudioMap) (k : SValue),
    (lookupA st.2 k).isSome = true →
    (lookupA (reconcile env self st ps).2 k).isSome = true := by
  induction ps with
  | nil => intro st k h; exact h
  | cons p t ih =>
      intro st k h
      rw [reconcile_cons]
      exact ih _ k (step_preserves_isSome env self st p k h)

/-- After a reconcile pass, every processed peer with a live environment has
an entry in the audio map. -/
theorem reconcile_establishes (env : SValue → Bool) (self : PlayerRec)
    (ps : List NearbyRec) : ∀ (st : Nat × AudioMap) (p : NearbyRec),
    p ∈ ps → env p.guid = true →
    (lookupA (reconcile env self st ps).2 p.guid).isSome = true := by
  induction ps with
  | nil => intro st p hp _; cases hp
  | cons q t ih =>
      intro st p hp he
      rw [reconcile_cons]
      rcases List.mem_cons.mp hp with rfl | hp2
      · apply reconcile_preserves_isSome
        rcases hle : lookupA st.2 p.guid with _ | e
        · simp only [reconcileStep, he, hle, if_true]
          rw [lookupA_append_of_none st.2 _ p.guid hle]
          simp [lookupA]
        · simp only [reconcileStep, he, hle, if_true]
          rw [lookupA_setA]
          simp [hle]
      · exact ih _ p hp2 he

/-- A reconcile pass whose peers all already have entries allocates nothing:
the node counter, the key list, and the node identity stored at every key are
unchanged; only stored numeric values may change. -/
theorem reconcile_stable (env : SValue → Bool) (self : PlayerRec)
    (ps : List NearbyRec) : ∀ (st : Nat × AudioMap),
    (∀ p ∈ ps, env p.guid = true → (lookupA st.2 p.guid).isSome = true) →
    (reconcile env self st ps).1 = st.1 ∧
    (reconcile env self st ps).2.map Prod.fst = st.2.map Prod.fst ∧
    ∀ k, Option.map GraphEntry.nodeId (lookupA (reconcile env self st ps).2 k)
        = Option.map GraphEntry.nodeId (lookupA st.2 k) := by
  induction ps with
  | nil => intro st _; exact ⟨rfl, rfl, fun _ => rfl⟩
  | cons p t ih =>
      intro st h
      rw [reconcile_cons]
      by_cases he : env p.guid = true
      · obtain ⟨e, hle⟩ : ∃ e, lookupA st.2 p.guid = some e := by
          have hs := h p (List.mem_cons_self p t) he
          rcases hq : lookupA st.2 p.guid with _ | e
          · rw [hq] at hs
            simp at hs
          · exact ⟨e, rfl⟩
        have hstep : reconcileStep env self st p
            = (st.1, setA st.2 p.guid ⟨e.nodeId, panOf self p⟩) := by
          simp [reconcileStep, he, hle]
        rw [hstep]
        have hpre : ∀ q ∈ t, env q.guid = true →
            (lookupA (st.1, setA st.2 p.guid ⟨e.nodeId, panOf self p⟩).2 q.guid).isSome
              = true := by
          intro q hq hqe
          have hin := h q (List.mem_cons_of_mem p hq) hqe
          show (lookupA (setA st.2 p.guid ⟨e.nodeId, panOf self p⟩) q.guid).isSome = true
          rw [lookupA_setA]
          by_cases hk : q.guid = p.guid
          · simp [hk, hle]
          · simp only [hk, if_false]
            exact hin
        obtain ⟨ih1, ih2, ih3⟩ := ih _ hpre
        refine ⟨ih1, ?_, ?_⟩
        · rw [ih2]
          exact setA_keys st.2 p.guid ⟨e.nodeId, panOf self p⟩
        · intro k
          rw [ih3 k]
          show Option.map GraphEntry.nodeId (lookupA (setA st.2 p.guid ⟨e.nodeId, panOf self p⟩) k)
              = Option.map GraphEntry.nodeId (lookupA st.2 k)
          rw [lookupA_setA]
          by_cases hk : k = p.guid
          · subst hk
            simp [hle]
          · simp [hk]
      · have he2 : env p.guid = false := by
          cases hq : env p.guid
          · rfl
          · exact absurd hq he
        have hstep : reconcileStep env self st p = st := by
          simp [reconcileStep, he2]
        rw [hstep]
        exact ih st (fun q hq hqe => h q (List.mem_cons_of_mem p hq) hqe)

/-- C6: running the reconcile pass a second time with the same nearby set,
self sample and environment creates no additional graph entries: the node
allocation counter and the key list of the per-peer map are unchanged, and the
entry stored at every key keeps the node chain built by the first pass - the
second pass only rewrites numeric pan state. -/
theorem reconcile_idempotent_structure (env : SValue → Bool) (self : PlayerRec)
    (c0 : Nat) (m0 : AudioMap) (ps : List NearbyRec) :
    (reconcile env self (reconcile env self (c0, m0) ps) ps).1
        = (reconcile env self (c0, m0) ps).1 ∧
    (reconcile env self (reconcile env self (c0, m0) ps) ps).2.map Prod.fst
        = (reconcile env self (c0, m0) ps).2.map Prod.fst ∧
    ∀ k, Option.map GraphEntry.nodeId
          (lookupA (reconcile env self (reconcile env self (c0, m0) ps) ps).2 k)
        = Option.map GraphEntry.nodeId (lookupA (reconcile env self (c0, m0) ps).2 k) :=
  reconcile_stable env self ps (reconcile env self (c0, m0) ps)
    (fun p hp he => reconcile_establishes env self ps (c0, m0) p hp he)

/-- C9: every socket close event schedules exactly one reconnect timer with
the fixed 2000 ms delay; but dispose does not prevent reconnection: in a
concrete run the guid is set, the socket opens, `dispose()` runs (clearing the
timer variable and closing the socket), and then the close event queued by
that very close fires the still-attached `onclose` handler, whose timer then
opens a brand-new socket - a reconnect attempt after dispose. -/
theorem feed_reconnect_after_dispose :
    (∀ (s : FeedState) (sid : Nat),
        (feedStep s (FeedAct.sockClosed sid)).pendingTimers
          = s.pendingTimers ++ [(s.nextTimer, reconnectDelayMs)] ∧
        (feedStep s (FeedAct.sockClosed sid)).reconnectTimer = some s.nextTimer ∧
        (feedStep s (FeedAct.sockClosed sid)).nextTimer = s.nextTimer + 1) ∧
    (feedRun f0feed [FeedAct.connect, FeedAct.sockOpened, FeedAct.dispose]).sock
        = some (0, SockSt.closed) ∧
    (feedRun f0feed [FeedAct.connect, FeedAct.sockOpened, FeedAct.dispose,
        FeedAct.sockClosed 0, FeedAct.timerFired 0]).sock
        = some (1, SockSt.connecting) ∧
    (feedRun f0feed [FeedAct.connect, FeedAct.sockOpened, FeedAct.dispose,
        FeedAct.sockClosed 0, FeedAct.timerFired 0]).nextSock = 2 := by
  refine ⟨?_, ?_, ?_, ?_⟩
  · intro s sid
    rcases hs : s.sock with _ | ⟨i, st⟩
    · simp [feedStep, hs]
    · by_cases hi : i = sid <;> simp [feedStep, hs, hi]
  · norm_num [feedRun, feedStep, connectToProximitySocket, f0feed, jsTruthy]
  · norm_num [feedRun, feedStep, connectToProximitySocket, f0feed, jsTruthy,
      reconnectDelayMs]
  · norm_num [feedRun, feedStep, connectToProximitySocket, f0feed, jsTruthy,
      reconnectDelayMs]
